import Mathlib

/-!
Verification development for the solar-system visualization.

The repository is a browser 3D demo.  The logic verified here is its
applied-math core, translated from the TypeScript source:

* `orbitPosition` — the per-frame planet orbit update
  (`src/src/components/Planet.tsx`, `useFrame` body: `t = elapsed * orbitSpeed;
  position = (distance*cos t, 0, distance*sin t)`; the same computation appears
  in `PlanetGroup` of the main scene file).
* `cinematicFocusedStep` / `cinematicResetStep` / `cinematicFrame` — the
  exponential-smoothing camera controller (`src/unnamed/part_001`,
  `CameraController`'s `useFrame` body), the controller imported by the main
  `SolarSystem` scene (`src/unnamed/part_003`).
* `getPlanetPos` — the target-position getter of the main scene
  (`src/unnamed/part_003`, `getPlanetPosition`).
* `freeOrbitStep` — the free-orbit camera controller of
  `src/src/components/CameraController.tsx` (else-branch of its `useFrame`).
* `renderInfoPanel` / `renderInfoOverlay` — the info-panel rendering logic
  (`src/unnamed/part_003` `InfoPanel` usage, `src/unnamed/part_002`
  `InfoOverlay`).

JavaScript numbers are modelled as real numbers; `THREE.Vector3` as `Vec3`.
-/

open Real Filter

/-- A 3-component vector of reals, modelling `THREE.Vector3`. -/
structure Vec3 where
  x : ℝ
  y : ℝ
  z : ℝ

/-- Componentwise `THREE.Vector3.lerp`: `this.x += (v.x - this.x) * alpha`. -/
noncomputable def Vec3.lerp (v w : Vec3) (a : ℝ) : Vec3 :=
  ⟨v.x + (w.x - v.x) * a, v.y + (w.y - v.y) * a, v.z + (w.z - v.z) * a⟩

/-! Section: Orbit position updater (`Planet.tsx` / `PlanetGroup`) -/

/-- The orbital phase used by the per-frame orbit update:
`const t = clock.getElapsedTime() * orbitSpeed`. -/
noncomputable def orbitAngle (orbitSpeed t : ℝ) : ℝ :=
  t * orbitSpeed

/-- The position written into the scene-graph node each frame
(`Planet.tsx` lines 40–43):
`position.x = distance * cos t; position.z = distance * sin t; position.y = 0`. -/
noncomputable def orbitPosition (distance orbitSpeed t : ℝ) : Vec3 :=
  ⟨distance * Real.cos (orbitAngle orbitSpeed t), 0,
   distance * Real.sin (orbitAngle orbitSpeed t)⟩

/-- C2: for every elapsed time `t` and every planet with fixed orbit distance
`r`, the position written by the per-frame orbit update satisfies
`x² + z² = r²` and `y = 0`: the planet lies at exactly distance `r` from the
origin in the horizontal plane. -/
theorem orbit_position_on_circle (r s t : ℝ) :
    (orbitPosition r s t).x ^ 2 + (orbitPosition r s t).z ^ 2 = r ^ 2 ∧
      (orbitPosition r s t).y = 0 := by
  refine ⟨?_, rfl⟩
  have h := Real.sin_sq_add_cos_sq (orbitAngle s t)
  show (r * Real.cos (orbitAngle s t)) ^ 2 + (r * Real.sin (orbitAngle s t)) ^ 2 = r ^ 2
  nlinarith [h]

/-- C3: with orbit radius 16 and angular speed 0.6, the orbit position is
`(16, 0, 0)` at elapsed time `t = 0` and `(-16, 0, 0)` at `t = π / 0.6`. -/
theorem orbit_concrete_scenario :
    orbitPosition 16 0.6 0 = ⟨16, 0, 0⟩ ∧
      orbitPosition 16 0.6 (Real.pi / 0.6) = ⟨-16, 0, 0⟩ := by
  constructor
  · show (⟨16 * Real.cos (orbitAngle 0.6 0), 0, 16 * Real.sin (orbitAngle 0.6 0)⟩ : Vec3)
      = ⟨16, 0, 0⟩
    have ha : orbitAngle 0.6 0 = 0 := by
      show (0 : ℝ) * 0.6 = 0
      ring
    rw [ha, Real.cos_zero, Real.sin_zero]
    norm_num
  · show (⟨16 * Real.cos (orbitAngle 0.6 (Real.pi / 0.6)), 0,
          16 * Real.sin (orbitAngle 0.6 (Real.pi / 0.6))⟩ : Vec3)
      = ⟨-16, 0, 0⟩
    have ha : orbitAngle 0.6 (Real.pi / 0.6) = Real.pi := by
      show Real.pi / 0.6 * 0.6 = Real.pi
      exact div_mul_cancel₀ Real.pi (by norm_num)
    rw [ha, Real.cos_pi, Real.sin_pi]
    norm_num

/-- C7: for a fixed positive angular speed `s` and any two time samples
`t1 < t2`, the orbital phase `angle t = t * s` strictly increases; and the
orbit position only depends on the phase modulo `2π` (advancing time by one
full period `2π / s` returns the same position). -/
theorem orbit_angle_strictly_increases (s t1 t2 r t : ℝ) (hs : 0 < s)
    (ht : t1 < t2) :
    orbitAngle s t1 < orbitAngle s t2 ∧
      orbitPosition r s (t + 2 * Real.pi / s) = orbitPosition r s t := by
  constructor
  · exact mul_lt_mul_of_pos_right ht hs
  · have ha : orbitAngle s (t + 2 * Real.pi / s) = orbitAngle s t + 2 * Real.pi := by
      show (t + 2 * Real.pi / s) * s = t * s + 2 * Real.pi
      field_simp
    show (⟨r * Real.cos (orbitAngle s (t + 2 * Real.pi / s)), 0,
          r * Real.sin (orbitAngle s (t + 2 * Real.pi / s))⟩ : Vec3)
      = ⟨r * Real.cos (orbitAngle s t), 0, r * Real.sin (orbitAngle s t)⟩
    rw [ha, Real.cos_add_two_pi, Real.sin_add_two_pi]

/-- Witness for C7 at speed `0.6`, times `0 < 1`, radius `16`. -/
theorem orbit_angle_strictly_increases_witness :
    orbitAngle 0.6 0 < orbitAngle 0.6 1 ∧
      orbitPosition 16 0.6 (0 + 2 * Real.pi / 0.6) = orbitPosition 16 0.6 0 :=
  orbit_angle_strictly_increases 0.6 0 1 16 0 (by norm_num) (by norm_num)

/-! Section: Cinematic camera controller (`src/unnamed/part_001`)

State of the controller: the two smoothed vectors held in refs
(`smoothedPlanet`, initialised `(0,0,0)`; `smoothedCamera`, initialised
`(0,40,120)`) and the `isActive` flag.  After every frame the camera position
is set to `smoothedCamera` and the camera looks at `smoothedPlanet`
(`camera.position.copy` / `camera.lookAt` in both branches); the `lastDir`
capture on activation is cosmetic and never read back, so it is omitted. -/

/-- Camera-controller smoothing state (`useRef` vectors of `part_001`). -/
structure CinematicState where
  smoothedPlanet : Vec3
  smoothedCamera : Vec3
  isActive : Bool

/-- Source line `const zoomPulse = Math.sin(time * 0.5) * 1.2`
(part_001 line 51). -/
noncomputable def zoomPulse (time : ℝ) : ℝ :=
  Real.sin (time * 0.5) * 1.2

/-- Source line `const currentRadius = orbitRadius + zoomPulse` with
`orbitRadius = 10`. -/
noncomputable def currentRadius (time : ℝ) : ℝ :=
  10 + zoomPulse time

/-- Source line `const orbitX = Math.sin(time * orbitSpeed) * currentRadius`
with `orbitSpeed = 0.2`. -/
noncomputable def orbitX (time : ℝ) : ℝ :=
  Real.sin (time * 0.2) * currentRadius time

/-- Source line `const orbitZ = Math.cos(time * orbitSpeed) * currentRadius`. -/
noncomputable def orbitZ (time : ℝ) : ℝ :=
  Real.cos (time * 0.2) * currentRadius time

/-- The desired camera position of the focused branch (part_001 lines 58–62):
`(smoothedPlanet.x + orbitX, smoothedPlanet.y + orbitHeight,
smoothedPlanet.z + orbitZ)` with `orbitHeight = 3`. -/
noncomputable def cinematicDesired (sp : Vec3) (time : ℝ) : Vec3 :=
  ⟨sp.x + orbitX time, sp.y + 3, sp.z + orbitZ time⟩

/-- Focused branch of the per-frame callback (part_001 lines 35–69):
`smoothedPlanet.lerp(target, 1 - exp(-delta * 4))`, then the desired orbit
position around the new smoothed planet, then
`smoothedCamera.lerp(desired, 1 - exp(-delta * 3))`; `isActive` becomes
`true`. -/
noncomputable def cinematicFocusedStep (st : CinematicState) (target : Vec3)
    (time delta : ℝ) : CinematicState :=
  let sp := st.smoothedPlanet.lerp target (1 - Real.exp (-delta * 4))
  let sc := st.smoothedCamera.lerp (cinematicDesired sp time)
    (1 - Real.exp (-delta * 3))
  ⟨sp, sc, true⟩

/-- Else branch of the per-frame callback (part_001 lines 70–79):
`smoothedCamera.lerp(defaultPos, 0.05)` with `defaultPos = (0,40,120)` and
`smoothedPlanet.lerp((0,0,0), 0.05)`; `isActive` becomes `false`. -/
noncomputable def cinematicResetStep (st : CinematicState) : CinematicState :=
  ⟨st.smoothedPlanet.lerp ⟨0, 0, 0⟩ 0.05,
   st.smoothedCamera.lerp ⟨0, 40, 120⟩ 0.05, false⟩

/-- One whole frame of the controller: the focused branch runs exactly when
`isFocusing` is set and the position getter produced a target
(`if (isFocusing && target)`), otherwise the reset branch runs. -/
noncomputable def cinematicFrame (st : CinematicState) (isFocusing : Bool)
    (target : Option Vec3) (time delta : ℝ) : CinematicState :=
  match target with
  | some tg => if isFocusing then cinematicFocusedStep st tg time delta
               else cinematicResetStep st
  | none => cinematicResetStep st

/-- C1: in Focused mode, for every frame with time step `delta ≥ 0`, both the
smoothed target position and the smoothed camera position are updated by
exponential smoothing `current := lerp(current, desired, 1 - e^(-k·delta))`
with fixed decay constants `k = 4` (target) and `k = 3` (camera).  The blend
factors `1 - e^(-4·delta)` and `1 - e^(-3·delta)` are functions of `delta`
alone — not of the state, the target or the clock — so the transition is
frame-rate independent; for `delta ≥ 0` they are valid blend weights in
`[0, 1)`. -/
theorem focused_step_exponential_smoothing (st : CinematicState) (target : Vec3)
    (time delta : ℝ) (hd : 0 ≤ delta) :
    (cinematicFocusedStep st target time delta).smoothedPlanet
        = st.smoothedPlanet.lerp target (1 - Real.exp (-delta * 4)) ∧
      (cinematicFocusedStep st target time delta).smoothedCamera
        = st.smoothedCamera.lerp
            (cinematicDesired
              (st.smoothedPlanet.lerp target (1 - Real.exp (-delta * 4))) time)
            (1 - Real.exp (-delta * 3)) ∧
      0 ≤ 1 - Real.exp (-delta * 4) ∧ 1 - Real.exp (-delta * 4) < 1 ∧
      0 ≤ 1 - Real.exp (-delta * 3) ∧ 1 - Real.exp (-delta * 3) < 1 := by
  refine ⟨rfl, rfl, ?_, ?_, ?_, ?_⟩
  · have h : Real.exp (-delta * 4) ≤ 1 := by
      rw [← Real.exp_zero]
      exact Real.exp_le_exp.mpr (by nlinarith)
    linarith
  · have h : 0 < Real.exp (-delta * 4) := Real.exp_pos _
    linarith
  · have h : Real.exp (-delta * 3) ≤ 1 := by
      rw [← Real.exp_zero]
      exact Real.exp_le_exp.mpr (by nlinarith)
    linarith
  · have h : 0 < Real.exp (-delta * 3) := Real.exp_pos _
    linarith

/-- Witness for C1 at a concrete state, target `(1,2,3)`, time `0`,
`delta = 1`. -/
theorem focused_step_exponential_smoothing_witness :
    (cinematicFocusedStep ⟨⟨0, 0, 0⟩, ⟨0, 40, 120⟩, false⟩ ⟨1, 2, 3⟩ 0 1).smoothedPlanet
        = Vec3.lerp ⟨0, 0, 0⟩ ⟨1, 2, 3⟩ (1 - Real.exp (-1 * 4)) ∧
      (cinematicFocusedStep ⟨⟨0, 0, 0⟩, ⟨0, 40, 120⟩, false⟩ ⟨1, 2, 3⟩ 0 1).smoothedCamera
        = Vec3.lerp ⟨0, 40, 120⟩
            (cinematicDesired
              (Vec3.lerp ⟨0, 0, 0⟩ ⟨1, 2, 3⟩ (1 - Real.exp (-1 * 4))) 0)
            (1 - Real.exp (-1 * 3)) ∧
      0 ≤ 1 - Real.exp (-1 * 4) ∧ 1 - Real.exp (-1 * 4) < 1 ∧
      0 ≤ 1 - Real.exp (-1 * 3) ∧ 1 - Real.exp (-1 * 3) < 1 :=
  focused_step_exponential_smoothing ⟨⟨0, 0, 0⟩, ⟨0, 40, 120⟩, false⟩ ⟨1, 2, 3⟩ 0 1
    (by norm_num)

/-- Helper: a scalar lerp with blend factor in `[0,1]` stays between its
endpoints. -/
theorem lerp_scalar_between (v d a : ℝ) (h0 : 0 ≤ a) (h1 : a ≤ 1) :
    min v d ≤ v + (d - v) * a ∧ v + (d - v) * a ≤ max v d := by
  rcases le_total v d with h | h
  · rw [min_eq_left h, max_eq_right h]
    constructor <;> nlinarith
  · rw [min_eq_right h, max_eq_left h]
    constructor <;> nlinarith

/-- C6: for every previous value `v`, desired value `d` and blend factor
`0 ≤ a ≤ 1`, the smoothing step `lerp v d a = v + (d - v)·a` is a convex
combination: each component of the result lies between the corresponding
components of `v` and `d`, so the smoothing never overshoots the desired
value.  In particular the factor `1 - e^(-k·dt)` used by the controller lies
in `[0, 1]` whenever `k, dt ≥ 0`. -/
theorem lerp_convex_no_overshoot (v d : Vec3) (a k dt : ℝ) (h0 : 0 ≤ a)
    (h1 : a ≤ 1) (hk : 0 ≤ k) (hdt : 0 ≤ dt) :
    (min v.x d.x ≤ (v.lerp d a).x ∧ (v.lerp d a).x ≤ max v.x d.x) ∧
      (min v.y d.y ≤ (v.lerp d a).y ∧ (v.lerp d a).y ≤ max v.y d.y) ∧
      (min v.z d.z ≤ (v.lerp d a).z ∧ (v.lerp d a).z ≤ max v.z d.z) ∧
      0 ≤ 1 - Real.exp (-(k * dt)) ∧ 1 - Real.exp (-(k * dt)) ≤ 1 := by
  refine ⟨lerp_scalar_between v.x d.x a h0 h1,
          lerp_scalar_between v.y d.y a h0 h1,
          lerp_scalar_between v.z d.z a h0 h1, ?_, ?_⟩
  · have h : Real.exp (-(k * dt)) ≤ 1 := by
      rw [← Real.exp_zero]
      exact Real.exp_le_exp.mpr (by nlinarith)
    linarith
  · have h : 0 < Real.exp (-(k * dt)) := Real.exp_pos _
    linarith

/-- Witness for C6 at `v = (0,0,0)`, `d = (2,4,6)`, `a = 1/2`, `k = 4`,
`dt = 0`. -/
theorem lerp_convex_no_overshoot_witness :
    (min (0:ℝ) 2 ≤ (Vec3.lerp ⟨0, 0, 0⟩ ⟨2, 4, 6⟩ (1/2)).x ∧
        (Vec3.lerp ⟨0, 0, 0⟩ ⟨2, 4, 6⟩ (1/2)).x ≤ max (0:ℝ) 2) ∧
      (min (0:ℝ) 4 ≤ (Vec3.lerp ⟨0, 0, 0⟩ ⟨2, 4, 6⟩ (1/2)).y ∧
        (Vec3.lerp ⟨0, 0, 0⟩ ⟨2, 4, 6⟩ (1/2)).y ≤ max (0:ℝ) 4) ∧
      (min (0:ℝ) 6 ≤ (Vec3.lerp ⟨0, 0, 0⟩ ⟨2, 4, 6⟩ (1/2)).z ∧
        (Vec3.lerp ⟨0, 0, 0⟩ ⟨2, 4, 6⟩ (1/2)).z ≤ max (0:ℝ) 6) ∧
      0 ≤ 1 - Real.exp (-((4:ℝ) * 0)) ∧ 1 - Real.exp (-((4:ℝ) * 0)) ≤ 1 :=
  lerp_convex_no_overshoot ⟨0, 0, 0⟩ ⟨2, 4, 6⟩ (1/2) 4 0 (by norm_num)
    (by norm_num) (by norm_num) (by norm_num)

/-- C10: in Focused mode the desired camera position computed each frame is
offset from the smoothed target position by exactly 3 units on the y axis,
and its horizontal distance from the smoothed target is
`10 + 1.2·sin(0.5·time)`, which always lies in `[8.8, 11.2]`; the desired
camera never comes closer than 8.8 horizontal units to the tracked target. -/
theorem focused_desired_offset (sp : Vec3) (time : ℝ) :
    (cinematicDesired sp time).y - sp.y = 3 ∧
      Real.sqrt (((cinematicDesired sp time).x - sp.x) ^ 2 +
          ((cinematicDesired sp time).z - sp.z) ^ 2)
        = 10 + 1.2 * Real.sin (0.5 * time) ∧
      8.8 ≤ 10 + 1.2 * Real.sin (0.5 * time) ∧
      10 + 1.2 * Real.sin (0.5 * time) ≤ 11.2 := by
  have hs1 : -1 ≤ Real.sin (0.5 * time) := Real.neg_one_le_sin _
  have hs2 : Real.sin (0.5 * time) ≤ 1 := Real.sin_le_one _
  have hcomm : Real.sin (time * 0.5) = Real.sin (0.5 * time) := by
    rw [mul_comm]
  have hR : (0:ℝ) ≤ 10 + 1.2 * Real.sin (0.5 * time) := by nlinarith
  refine ⟨?_, ?_, by nlinarith, by nlinarith⟩
  · show sp.y + 3 - sp.y = 3
    ring
  · have hx : (cinematicDesired sp time).x - sp.x
        = Real.sin (time * 0.2) * (10 + 1.2 * Real.sin (0.5 * time)) := by
      show sp.x + orbitX time - sp.x
        = Real.sin (time * 0.2) * (10 + 1.2 * Real.sin (0.5 * time))
      unfold orbitX currentRadius zoomPulse
      rw [hcomm]
      ring
    have hz : (cinematicDesired sp time).z - sp.z
        = Real.cos (time * 0.2) * (10 + 1.2 * Real.sin (0.5 * time)) := by
      show sp.z + orbitZ time - sp.z
        = Real.cos (time * 0.2) * (10 + 1.2 * Real.sin (0.5 * time))
      unfold orbitZ currentRadius zoomPulse
      rw [hcomm]
      ring
    rw [hx, hz]
    have hpyth := Real.sin_sq_add_cos_sq (time * 0.2)
    have hsum : (Real.sin (time * 0.2) * (10 + 1.2 * Real.sin (0.5 * time))) ^ 2 +
        (Real.cos (time * 0.2) * (10 + 1.2 * Real.sin (0.5 * time))) ^ 2
        = (10 + 1.2 * Real.sin (0.5 * time)) ^ 2 := by nlinarith [hpyth]
    rw [hsum, Real.sqrt_sq hR]

/-! Section: Target-position getter of the main scene (`src/unnamed/part_003`)

`getPlanetPosition` keeps its own smoothed target vector:
`if (!selected) return null; const ref = planetRefs[selected];
if (!ref?.current) return smoothedTarget;
smoothedTarget.lerp(worldPos, 0.2); return smoothedTarget;`.
`refPos` is the world position of the selected planet's scene-graph group
(`localToWorld` of the origin), `none` when the ref is not yet attached.
The result is the returned value paired with the updated smoothed vector. -/
noncomputable def getPlanetPos (selected : Option String) (refPos : Option Vec3)
    (smoothedTarget : Vec3) : Option Vec3 × Vec3 :=
  match selected with
  | none => (none, smoothedTarget)
  | some _ =>
    match refPos with
    | none => (some smoothedTarget, smoothedTarget)
    | some world =>
      (some (smoothedTarget.lerp world 0.2), smoothedTarget.lerp world 0.2)

/-- C4 counterexample: with focus active and the position getter returning
`null`, the controller does NOT hold the last known smoothed values.  From
the state with both smoothed vectors at `(0,0,0)`, one frame moves the
smoothed camera to `(0, 2, 6)` — a step toward the default `(0,40,120)` —
which differs from the held value `(0,0,0)`. -/
theorem unresolved_target_holds_counterexample :
    (cinematicFrame ⟨⟨0, 0, 0⟩, ⟨0, 0, 0⟩, true⟩ true none 0 0).smoothedCamera
        = ⟨0, 2, 6⟩ ∧
      (⟨0, 2, 6⟩ : Vec3) ≠ ⟨0, 0, 0⟩ := by
  constructor
  · show Vec3.lerp ⟨0, 0, 0⟩ ⟨0, 40, 120⟩ 0.05 = ⟨0, 2, 6⟩
    show (⟨0 + (0 - 0) * 0.05, 0 + (40 - 0) * 0.05, 0 + (120 - 0) * 0.05⟩ : Vec3)
      = ⟨0, 2, 6⟩
    norm_num
  · intro h
    have hy : (2:ℝ) = 0 := congrArg Vec3.y h
    norm_num at hy

/-- C4 amended: no frame ever signals an error (every step is a total
function), and the two unresolvable-target cases behave as follows.
(a) When the selected planet's scene-graph reference is missing, the getter
returns its last smoothed target unchanged, so the focused branch's input —
and hence the smoothing state — evolves continuously from the held value.
(b) When the position getter returns `null` while focus is active, the
controller takes the default-view branch: instead of holding the smoothed
values, it blends each of them toward the default constants `(0,40,120)` and
`(0,0,0)` at the fixed rate `0.05` — a gradual, not discontinuous, change. -/
theorem unresolved_target_degrades_silently (n : String) (st : Vec3)
    (s : CinematicState) (time delta : ℝ) :
    getPlanetPos (some n) none st = (some st, st) ∧
      getPlanetPos none none st = (none, st) ∧
      cinematicFrame s true none time delta = cinematicResetStep s ∧
      (cinematicResetStep s).smoothedCamera
        = s.smoothedCamera.lerp ⟨0, 40, 120⟩ 0.05 ∧
      (cinematicResetStep s).smoothedPlanet
        = s.smoothedPlanet.lerp ⟨0, 0, 0⟩ 0.05 :=
  ⟨rfl, rfl, rfl, rfl, rfl⟩

/-! Section: Convergence after deselection (C5) -/

/-- Iterated reset frames: the controller state after `n` frames with the
selection cleared. -/
noncomputable def resetIter (s : CinematicState) : ℕ → CinematicState
  | 0 => s
  | n + 1 => cinematicResetStep (resetIter s n)

/-- Helper: closed form of the scalar recurrence
`g (n+1) = g n + (d - g n) * 0.05`. -/
theorem iter_lerp_scalar (g : ℕ → ℝ) (d : ℝ)
    (hg : ∀ n, g (n + 1) = g n + (d - g n) * 0.05) (n : ℕ) :
    g n - d = 0.95 ^ n * (g 0 - d) := by
  induction n with
  | zero => norm_num
  | succ k ih =>
    have hstep : g (k + 1) - d = 0.95 * (g k - d) := by
      rw [hg k]; ring
    rw [hstep, ih, pow_succ]
    ring

/-- Helper: a sequence whose distance to `d` decays geometrically with ratio
`0.95` tends to `d`. -/
theorem tendsto_of_geom_decay (g : ℕ → ℝ) (d : ℝ)
    (h : ∀ n, g n - d = 0.95 ^ n * (g 0 - d)) :
    Tendsto g atTop (nhds d) := by
  have h1 : Tendsto (fun n : ℕ => (0.95:ℝ) ^ n) atTop (nhds 0) :=
    tendsto_pow_atTop_nhds_zero_of_lt_one (by norm_num) (by norm_num)
  have h2 : Tendsto (fun n : ℕ => (0.95:ℝ) ^ n * (g 0 - d) + d) atTop
      (nhds (0 * (g 0 - d) + d)) := (h1.mul_const _).add_const d
  have h3 : g = fun n => (0.95:ℝ) ^ n * (g 0 - d) + d := by
    funext n
    have := h n
    linarith
  rw [h3]
  have h4 : (0:ℝ) * (g 0 - d) + d = d := by ring
  rw [h4] at h2
  exact h2

/-- Helper: each component of the reset iteration satisfies the scalar lerp
recurrence and hence converges to its default. -/
theorem resetIter_component_tendsto (s : CinematicState) (f : CinematicState → ℝ)
    (d : ℝ) (hf : ∀ t, f (cinematicResetStep t) = f t + (d - f t) * 0.05) :
    Tendsto (fun n => f (resetIter s n)) atTop (nhds d) := by
  apply tendsto_of_geom_decay
  apply iter_lerp_scalar
  intro n
  show f (cinematicResetStep (resetIter s n)) = _
  exact hf (resetIter s n)

/-- C5: clearing the selection returns the camera to the default view: from
every controller state, repeated reset frames blend the smoothed vectors
toward the defaults at the fixed rate `0.05` per frame, and the smoothed
camera position converges to `(0, 40, 120)` while the smoothed look target
converges to the origin `(0, 0, 0)` — the same steady state as if nothing had
ever been selected, since the limit is independent of the initial state. -/
theorem deselect_returns_to_default (s : CinematicState) :
    (cinematicResetStep s).smoothedCamera
        = s.smoothedCamera.lerp ⟨0, 40, 120⟩ 0.05 ∧
      (cinematicResetStep s).smoothedPlanet
        = s.smoothedPlanet.lerp ⟨0, 0, 0⟩ 0.05 ∧
      Tendsto (fun n => (resetIter s n).smoothedCamera.x) atTop (nhds 0) ∧
      Tendsto (fun n => (resetIter s n).smoothedCamera.y) atTop (nhds 40) ∧
      Tendsto (fun n => (resetIter s n).smoothedCamera.z) atTop (nhds 120) ∧
      Tendsto (fun n => (resetIter s n).smoothedPlanet.x) atTop (nhds 0) ∧
      Tendsto (fun n => (resetIter s n).smoothedPlanet.y) atTop (nhds 0) ∧
      Tendsto (fun n => (resetIter s n).smoothedPlanet.z) atTop (nhds 0) := by
  refine ⟨rfl, rfl, ?_, ?_, ?_, ?_, ?_, ?_⟩
  · exact resetIter_component_tendsto s (fun t => t.smoothedCamera.x) 0
      (fun t => rfl)
  · exact resetIter_component_tendsto s (fun t => t.smoothedCamera.y) 40
      (fun t => rfl)
  · exact resetIter_component_tendsto s (fun t => t.smoothedCamera.z) 120
      (fun t => rfl)
  · exact resetIter_component_tendsto s (fun t => t.smoothedPlanet.x) 0
      (fun t => rfl)
  · exact resetIter_component_tendsto s (fun t => t.smoothedPlanet.y) 0
      (fun t => rfl)
  · exact resetIter_component_tendsto s (fun t => t.smoothedPlanet.z) 0
      (fun t => rfl)

/-! Section: Free-orbit camera controller (`src/src/components/CameraController.tsx`)

Else-branch of its `useFrame`, with `radius = 60`, `height = 20`,
`rotationSpeed = 0.001`:
`angle += rotationSpeed;
x = radius * cos(angle) + mouse.x * 5;
z = radius * sin(angle) + mouse.y * 5;
y = height + sin(clock.getElapsedTime() * 0.2) * 5;
camera.position.lerp((x,y,z), 0.05)`. -/

/-- Free-orbit controller state: the accumulating orbit `angle` and the
camera position. -/
structure FreeOrbitState where
  angle : ℝ
  cameraPos : Vec3

/-- The desired camera point of the free-orbit branch, as a function of the
advanced angle, the normalized pointer coordinates and the elapsed time. -/
noncomputable def freeOrbitDesired (angle mouseX mouseY time : ℝ) : Vec3 :=
  ⟨60 * Real.cos angle + mouseX * 5,
   20 + Real.sin (time * 0.2) * 5,
   60 * Real.sin angle + mouseY * 5⟩

/-- One frame of the free-orbit branch: advance the angle by `0.001`, then
lerp the camera toward the desired point with blend `0.05`. -/
noncomputable def freeOrbitStep (s : FreeOrbitState) (mouseX mouseY time : ℝ) :
    FreeOrbitState :=
  ⟨s.angle + 0.001,
   s.cameraPos.lerp (freeOrbitDesired (s.angle + 0.001) mouseX mouseY time) 0.05⟩

/-- C8 counterexample: the free-orbit height is not fixed at 20.  With the
pointer at the origin and elapsed time `2.5·π`, the desired camera point has
`y = 20 + sin(π/2)·5 = 25 ≠ 20`. -/
theorem free_orbit_fixed_height_counterexample :
    (freeOrbitDesired 0 0 0 (2.5 * Real.pi)).y = 25 ∧ (25:ℝ) ≠ 20 := by
  constructor
  · show 20 + Real.sin (2.5 * Real.pi * 0.2) * 5 = 25
    have h : 2.5 * Real.pi * 0.2 = Real.pi / 2 := by ring
    rw [h, Real.sin_pi_div_two]
    norm_num
  · norm_num

/-- C8 amended: in Free mode each frame advances the orbit angle by exactly
the constant `0.001` (so it increases monotonically across frames); the
desired camera point sits on the radius-60 circle around the scene origin,
perturbed by the pointer by at most 5 units per horizontal axis when the
pointer coordinates are normalized to `[-1, 1]`; its height is not the fixed
value 20 but `20 + 5·sin(0.2·t)`, always within `[15, 25]`; and the camera
position moves toward this desired point by the fixed blend `0.05`. -/
theorem free_orbit_amended (s : FreeOrbitState) (mx my time : ℝ)
    (hx : |mx| ≤ 1) (hy : |my| ≤ 1) :
    (freeOrbitStep s mx my time).angle = s.angle + 0.001 ∧
      s.angle < (freeOrbitStep s mx my time).angle ∧
      |(freeOrbitDesired (s.angle + 0.001) mx my time).x
          - 60 * Real.cos (s.angle + 0.001)| ≤ 5 ∧
      |(freeOrbitDesired (s.angle + 0.001) mx my time).z
          - 60 * Real.sin (s.angle + 0.001)| ≤ 5 ∧
      15 ≤ (freeOrbitDesired (s.angle + 0.001) mx my time).y ∧
      (freeOrbitDesired (s.angle + 0.001) mx my time).y ≤ 25 ∧
      (freeOrbitStep s mx my time).cameraPos
        = s.cameraPos.lerp (freeOrbitDesired (s.angle + 0.001) mx my time) 0.05 := by
  have hx' := abs_le.mp hx
  have hy' := abs_le.mp hy
  have hs1 : -1 ≤ Real.sin (time * 0.2) := Real.neg_one_le_sin _
  have hs2 : Real.sin (time * 0.2) ≤ 1 := Real.sin_le_one _
  refine ⟨rfl, by show s.angle < s.angle + 0.001; norm_num, ?_, ?_, ?_, ?_, rfl⟩
  · have h : (freeOrbitDesired (s.angle + 0.001) mx my time).x
        - 60 * Real.cos (s.angle + 0.001) = mx * 5 := by
      show 60 * Real.cos (s.angle + 0.001) + mx * 5
        - 60 * Real.cos (s.angle + 0.001) = mx * 5
      ring
    rw [h, abs_le]
    constructor <;> nlinarith [hx'.1, hx'.2]
  · have h : (freeOrbitDesired (s.angle + 0.001) mx my time).z
        - 60 * Real.sin (s.angle + 0.001) = my * 5 := by
      show 60 * Real.sin (s.angle + 0.001) + my * 5
        - 60 * Real.sin (s.angle + 0.001) = my * 5
      ring
    rw [h, abs_le]
    constructor <;> nlinarith [hy'.1, hy'.2]
  · show 15 ≤ 20 + Real.sin (time * 0.2) * 5
    nlinarith
  · show 20 + Real.sin (time * 0.2) * 5 ≤ 25
    nlinarith

/-- Witness for the amended C8 at angle `0`, camera `(0,0,0)`, pointer at the
origin, time `0`. -/
theorem free_orbit_amended_witness :
    (freeOrbitStep ⟨0, ⟨0, 0, 0⟩⟩ 0 0 0).angle = 0 + 0.001 ∧
      (0:ℝ) < (freeOrbitStep ⟨0, ⟨0, 0, 0⟩⟩ 0 0 0).angle ∧
      |(freeOrbitDesired (0 + 0.001) 0 0 0).x - 60 * Real.cos (0 + 0.001)| ≤ 5 ∧
      |(freeOrbitDesired (0 + 0.001) 0 0 0).z - 60 * Real.sin (0 + 0.001)| ≤ 5 ∧
      15 ≤ (freeOrbitDesired (0 + 0.001) 0 0 0).y ∧
      (freeOrbitDesired (0 + 0.001) 0 0 0).y ≤ 25 ∧
      (freeOrbitStep ⟨0, ⟨0, 0, 0⟩⟩ 0 0 0).cameraPos
        = Vec3.lerp ⟨0, 0, 0⟩ (freeOrbitDesired (0 + 0.001) 0 0 0) 0.05 :=
  free_orbit_amended ⟨0, ⟨0, 0, 0⟩⟩ 0 0 0 (by norm_num) (by norm_num)

/-! Section: Info panels (`src/unnamed/part_003`, `part_002`)

JavaScript string truthiness is modelled faithfully: a `string | null` guard
(`if (!name) …`, `{name && …}`) rejects both `null` and the empty string.
Every selection identifier the app ever sets is one of the planet names, all
non-empty. -/

/-- The `planetInfo` record of the main scene (`part_003` lines 26–35). -/
def planetInfoMain (n : String) : Option String :=
  if n = "Mercury" then some "Smallest planet, closest to the Sun." else
  if n = "Venus" then some "Hottest planet with dense atmosphere." else
  if n = "Earth" then some "Our home world with oceans and life." else
  if n = "Mars" then some "The Red Planet, target for exploration." else
  if n = "Jupiter" then some "Gas giant with Great Red Spot." else
  if n = "Saturn" then some "Known for its magnificent rings." else
  if n = "Uranus" then some "An ice giant tilted on its side." else
  if n = "Neptune" then some "Cold, windy, and farthest planet." else
  none

/-- The `planetInfo` record of `part_002` (lines 146–151). -/
def planetInfoOverlay (n : String) : Option String :=
  if n = "Mercury" then some "Smallest planet, closest to the Sun" else
  if n = "Venus" then some "Hottest planet with thick clouds" else
  if n = "Earth" then some "Our home planet with abundant life" else
  if n = "Mars" then some "The Red Planet, potential for future colonies" else
  none

/-- Rendering of the info panel in the main scene
(`{selected && <InfoPanel name={selected} />}`, `part_003` line 313, with
`InfoPanel` showing the name and `planetInfo[name]`): `none` means no panel
is rendered; `some (n, c)` means a panel titled `n` with content `c`. -/
def renderInfoPanel (selected : Option String) : Option (String × Option String) :=
  match selected with
  | none => none
  | some n => if n = "" then none else some (n, planetInfoMain n)

/-- Rendering of `InfoOverlay` (`part_002` lines 153–176:
`if (!targetPlanetName) return null;` then a panel showing
`planetInfo[targetPlanetName]`). -/
def renderInfoOverlay (targetPlanetName : Option String) : Option (Option String) :=
  match targetPlanetName with
  | none => none
  | some n => if n = "" then none else some (planetInfoOverlay n)

/-- C9: whenever the selection identifier names a target (all target names
are non-empty strings), an informational panel is rendered whose content is
looked up by that name; whenever the selection identifier is null, no panel
is rendered.  This holds for both the main scene's `InfoPanel` and the
`InfoOverlay` variant. -/
theorem info_panel_tracks_selection (n : String) (hn : n ≠ "") :
    renderInfoPanel (some n) = some (n, planetInfoMain n) ∧
      renderInfoOverlay (some n) = some (planetInfoOverlay n) ∧
      renderInfoPanel none = none ∧
      renderInfoOverlay none = none := by
  refine ⟨?_, ?_, rfl, rfl⟩
  · show (if n = "" then none else some (n, planetInfoMain n)) = _
    rw [if_neg hn]
  · show (if n = "" then none else some (planetInfoOverlay n)) = _
    rw [if_neg hn]

/-- Witness for C9 at the selection `"Earth"`. -/
theorem info_panel_tracks_selection_witness :
    renderInfoPanel (some "Earth") = some ("Earth", planetInfoMain "Earth") ∧
      renderInfoOverlay (some "Earth") = some (planetInfoOverlay "Earth") ∧
      renderInfoPanel none = none ∧
      renderInfoOverlay none = none :=
  info_panel_tracks_selection "Earth" (by decide)
